import Mathlib

/-!
Verification development for the energy-reports pipeline (`main.py`).

The pipeline derives thermodynamic columns from raw hourly sensor rows
(`calculate_enthalpy_dataframe`), filters rows by equipment constraints
(`equipment_constraints`), and prepares binned/aggregated views for charts
(`chart_1`, `chart_2_dataframe_prep`).

Modelling choices:
* a pandas row is a structure over `ℚ` (the numeric literals of the source
  are all decimal, hence rational);
* the IAPWS-IF97 steam-table lookup `IAPWS97(P, T).h` is an external
  library; the pipeline only depends on it through success
  (`some h`) or a `NotImplementedError` failure (`none`), so it is
  abstracted as a parameter `lookup : ℚ → ℚ → Option ℚ`;
* the `logger.warning` emitted on lookup failure is modelled as a
  `Warning` value collected in a list, in row order;
* pandas column assignments that mutate the shared dataframe are modelled
  as explicit table-to-table functions (`chart_1_mutate`,
  `chart_2_prep_mutate`);
* Python `range(start, stop, step)` and `int()` truncation are modelled by
  `pyRange` and `pyInt`; `pd.cut` with right-closed intervals by `pdCut`.
-/

/-- A timestamp, with the fields the charts read (`dt.year`,
`dt.to_period('Q')` via the month, `dt.hour`). -/
structure Timestamp where
  year : ℤ
  month : ℕ
  hour : ℕ
deriving DecidableEq

/-- A raw hourly row as produced by the resampling step: the five input
columns `Timestamp`, `Power (MW)`, `PowerSwing (MW)`, `Press (psig)`,
`Temp (°F)`. -/
structure RawRow where
  timestamp : Timestamp
  power_mw : ℚ
  powerSwing_mw : ℚ
  press_psig : ℚ
  temp_f : ℚ
deriving DecidableEq

/-- The data carried by the warning logged in `calculate_enthalpy` when the
steam-table lookup raises: the row's timestamp, its `Press (MPa)` and its
`Temp (K)`. -/
structure Warning where
  timestamp : Timestamp
  press_mpa : ℚ
  temp_k : ℚ
deriving DecidableEq

/-- A row of the augmented dataframe.  The five raw columns are always
present; the core adds `Press (psia)`, `Temp (K)`, `Press (MPa)` (total)
and the two enthalpy columns (absent on lookup failure, pandas `NaN`).
The chart functions later assign `Quarter`, `Year` and `Temp_Range`
columns on the shared dataframe; those start out absent (`none`). -/
structure Row where
  timestamp : Timestamp
  power_mw : ℚ
  powerSwing_mw : ℚ
  press_psig : ℚ
  temp_f : ℚ
  press_psia : ℚ
  temp_k : ℚ
  press_mpa : ℚ
  enthalpy_kJ : Option ℚ
  enthalpy_BTU : Option ℚ
  quarter : Option (ℤ × ℕ) := none
  year : Option ℤ := none
  temp_range : Option String := none
deriving DecidableEq

/-- `df['Press (psia)'] = df['Press (psig)'] + 14.7` (row-local view). -/
def psiaOf (r : RawRow) : ℚ := r.press_psig + 147/10

/-- `df['Temp (K)'] = (df['Temp (°F)'] - 32) * 5/9 + 273.15`. -/
def tempKOf (r : RawRow) : ℚ := (r.temp_f - 32) * 5/9 + 27315/100

/-- `df['Press (MPa)'] = df['Press (psia)'] * 6894.76 / 10**6`. -/
def mpaOf (r : RawRow) : ℚ := psiaOf r * (689476/100) / 10^6

/-- `calculate_enthalpy`: `IAPWS97(P=row['Press (MPa)'], T=row['Temp (K)']).h`
inside `try`, returning `None` on `NotImplementedError`.  The library call
is the abstract `lookup`. -/
def calculate_enthalpy (lookup : ℚ → ℚ → Option ℚ) (r : RawRow) : Option ℚ :=
  lookup (mpaOf r) (tempKOf r)

/-- The warning `calculate_enthalpy` logs when the lookup raises
(`logger.warning(f"Warning for Timestamp {..} P={..}, T={..}: {e}")`):
one warning on failure, none on success. -/
def rowWarning (lookup : ℚ → ℚ → Option ℚ) (r : RawRow) : List Warning :=
  match lookup (mpaOf r) (tempKOf r) with
  | some _ => []
  | none => [⟨r.timestamp, mpaOf r, tempKOf r⟩]

/-- The fully derived row after `calculate_enthalpy_dataframe`: the three
conversion columns, the enthalpy lookup, and
`df['Enthalpy (BTU/lb)'] = df['Enthalpy (kJ/kg)'] * 0.4299226`
(pandas `NaN * c = NaN`, so absence propagates through the product). -/
def deriveRow (lookup : ℚ → ℚ → Option ℚ) (r : RawRow) : Row :=
  { timestamp := r.timestamp
    power_mw := r.power_mw
    powerSwing_mw := r.powerSwing_mw
    press_psig := r.press_psig
    temp_f := r.temp_f
    press_psia := psiaOf r
    temp_k := tempKOf r
    press_mpa := mpaOf r
    enthalpy_kJ := calculate_enthalpy lookup r
    enthalpy_BTU := (calculate_enthalpy lookup r).map (fun h => h * (4299226/10^7)) }

/-- `calculate_enthalpy_dataframe`: augments every row (column assignments
are row-local) and produces the warnings of the failed lookups, in row
order. -/
def calculate_enthalpy_dataframe (lookup : ℚ → ℚ → Option ℚ) (df : List RawRow) :
    List Row × List Warning :=
  (df.map (deriveRow lookup), df.flatMap (rowWarning lookup))

/-- The shared steady-state predicate of `equipment_constraints`:
`Power (MW) > 30  ∧  PowerSwing (MW) <= 3  ∧  Temp (°F) > 1000`. -/
def steadyState (r : Row) : Prop :=
  30 < r.power_mw ∧ r.powerSwing_mw ≤ 3 ∧ 1000 < r.temp_f

instance (r : Row) : Decidable (steadyState r) := by
  unfold steadyState; infer_instance

/-- `equipment_constraints`: `df.loc[(Power > 30) & (PowerSwing <= 3) &
(Temp > 1000)]`. -/
def equipment_constraints (df : List Row) : List Row :=
  df.filter (fun r => decide (steadyState r))

/-- Python `int()` applied to a rational: truncation toward zero. -/
def pyInt (q : ℚ) : ℤ := if 0 ≤ q then ⌊q⌋ else ⌈q⌉

/-- Fuel-driven unfolding of Python `range(.., stop, step)` for positive
step: emit `cur` while `cur < stop`, advancing by `step`. -/
def pyRangeGo (stop step : ℤ) : ℤ → ℕ → List ℤ
  | _, 0 => []
  | cur, fuel + 1 =>
    if cur < stop then cur :: pyRangeGo stop step (cur + step) fuel else []

/-- Python `range(start, stop, step)` with positive step, as the list of
its elements.  `(stop - start).toNat` fuel suffices since every iteration
advances `cur` by at least one. -/
def pyRange (start stop step : ℤ) : List ℤ :=
  if 0 < step then pyRangeGo stop step start (stop - start).toNat else []

/-- The bin labels `[f'{i} - {i + w}°F' for i in temp_bins[:-1]]`. -/
def binLabels (w : ℤ) (edges : List ℤ) : List String :=
  edges.dropLast.map (fun i => s!"{i} - {i + w}°F")

/-- `pd.cut(x, bins=edges, labels=labels)` for one value with the default
right-closed intervals: the label of the first `(e₁, e₂]` containing `x`,
`NaN` (`none`) when no interval does. -/
def pdCut (edges : List ℤ) (labels : List String) (x : ℚ) : Option String :=
  match edges, labels with
  | e1 :: e2 :: es, l :: ls =>
    if (e1 : ℚ) < x ∧ x ≤ (e2 : ℚ) then some l else pdCut (e2 :: es) ls x
  | _, _ => none

/-- `df['Temp (°F)'].max()` — `none` on an empty table (where pandas
yields `NaN` and the pipeline would fail at `int()`). -/
def tempMax : List Row → Option ℚ
  | [] => none
  | r :: rs => some (rs.foldl (fun a x => max a x.temp_f) r.temp_f)

/-- Chart 1's coarse bin edges:
`temp_bins = range(1000, int(df['Temp (°F)'].max()) + 50, 50)`. -/
def chart1Bins (df : List Row) : List ℤ :=
  pyRange 1000 (pyInt ((tempMax df).getD 0) + 50) 50

/-- Chart 2's fine bin edges:
`temp_bins = range(1000, int(df['Temp (°F)'].max()) + 10, 10)`. -/
def chart2Bins (df : List Row) : List ℤ :=
  pyRange 1000 (pyInt ((tempMax df).getD 0) + 10) 10

/-- `pd.to_datetime(ts).dt.to_period('Q')`: the year-quarter of a
timestamp. -/
def toQuarter (ts : Timestamp) : ℤ × ℕ := (ts.year, (ts.month - 1) / 3 + 1)

/-- The dataframe mutations `chart_1` performs on the shared table before
filtering: assign the `Quarter`, `Year` and `Temp_Range` (50°F-bin)
columns. -/
def chart_1_mutate (df : List Row) : List Row :=
  let edges := chart1Bins df
  let labels := binLabels 50 edges
  df.map (fun r =>
    { r with quarter := some (toQuarter r.timestamp)
             year := some r.timestamp.year
             temp_range := pdCut edges labels r.temp_f })

/-- The dataframe mutation `chart_2_dataframe_prep` performs on the shared
table: reassign `Temp_Range` from the 10°F bins. -/
def chart_2_prep_mutate (df : List Row) : List Row :=
  let edges := chart2Bins df
  let labels := binLabels 10 edges
  df.map (fun r => { r with temp_range := pdCut edges labels r.temp_f })

/-- `chart_2_dataframe_prep`: mutates the shared table's `Temp_Range`,
then returns the `equipment_constraints`-filtered view (the `Color`
column it also adds is pure presentation and not modelled). -/
def chart_2_dataframe_prep (df : List Row) : List Row × List Row :=
  (chart_2_prep_mutate df, equipment_constraints (chart_2_prep_mutate df))

/-- The rows the chart-2 scatter variants plot: the traces iterate
`df_filtered.groupby('Temp_Range', observed=False)`, and pandas groupby
(default `dropna=True`) drops rows whose `Temp_Range` is `NaN`, so the
union of the plotted traces is the filtered rows with a present
`Temp_Range`. -/
def chart_2_points (df : List Row) : List Row :=
  ((chart_2_dataframe_prep df).2).filter (fun r => decide (r.temp_range ≠ none))

/-- Chart 1's filtered table: `df_filtered = equipment_constraints(df)`
after the column mutations. -/
def chart_1_filtered (df : List Row) : List Row :=
  equipment_constraints (chart_1_mutate df)

/-- The groupby key of `chart_1`'s aggregation:
`(Year, Quarter, Temp_Range)`; pandas drops rows whose `Temp_Range` is
`NaN` from the groupby, hence the `Option.map`. -/
def chart1Key (r : Row) : Option (Option ℤ × Option (ℤ × ℕ) × String) :=
  r.temp_range.map (fun lbl => (r.year, r.quarter, lbl))

/-- The size of one `(Year, Quarter, Temp_Range)` group among the filtered
rows (`groupby(...).size()`, the `Hours` column). -/
def countKey (dff : List Row) (k : Option ℤ × Option (ℤ × ℕ) × String) : ℕ :=
  (dff.filter (fun r => decide (chart1Key r = some k))).length

/-- Chart 1's aggregated table after
`df_agg = df_agg.loc[df_agg['Hours'] > 5]`: one `(key, Hours)` entry per
occurring group, keeping only groups of more than 5 hours. -/
def chart_1_table (dff : List Row) :
    List ((Option ℤ × Option (ℤ × ℕ) × String) × ℕ) :=
  (((dff.filterMap chart1Key).dedup).map (fun k => (k, countKey dff k))).filter
    (fun p => decide (5 < p.2))

/-! ### Helper lemmas -/

lemma pyRangeGo_of_not_lt (stop step cur : ℤ) (fuel : ℕ) (h : ¬ cur < stop) :
    pyRangeGo stop step cur fuel = [] := by
  cases fuel <;> simp [pyRangeGo, h]

lemma pyRangeGo_head (stop step cur : ℤ) (fuel : ℕ) (hfuel : 0 < fuel)
    (h : cur < stop) : (pyRangeGo stop step cur fuel).head? = some cur := by
  cases fuel with
  | zero => exact absurd hfuel (by omega)
  | succ n => simp [pyRangeGo, h]

lemma pyRangeGo_getLast (stop step : ℤ) :
    ∀ (fuel : ℕ) (cur : ℤ), cur < stop → stop ≤ cur + step * fuel →
      ∃ L, (pyRangeGo stop step cur fuel).getLast? = some L ∧
        L < stop ∧ stop ≤ L + step := by
  intro fuel
  induction fuel with
  | zero =>
    intro cur h1 h2
    simp only [Nat.cast_zero, mul_zero, add_zero] at h2
    omega
  | succ n ih =>
    intro cur h1 h2
    simp only [pyRangeGo, if_pos h1]
    by_cases h3 : cur + step < stop
    · have hexp : step * ((n : ℤ) + 1) = step * (n : ℤ) + step := by ring
      have hc : ((n + 1 : ℕ) : ℤ) = (n : ℤ) + 1 := by push_cast; ring
      rw [hc, hexp] at h2
      have h4 : stop ≤ (cur + step) + step * (n : ℤ) := by linarith
      obtain ⟨L, hL1, hL2, hL3⟩ := ih (cur + step) h3 h4
      refine ⟨L, ?_, hL2, hL3⟩
      cases hrest : pyRangeGo stop step (cur + step) n with
      | nil => rw [hrest] at hL1; simp at hL1
      | cons a t => rw [hrest] at hL1; rw [List.getLast?_cons_cons, hL1]
    · rw [pyRangeGo_of_not_lt stop step (cur + step) n h3]
      exact ⟨cur, rfl, h1, by omega⟩

lemma pyRange_spec (start stop step : ℤ) (hstep : 0 < step) (hlt : start < stop) :
    (pyRange start stop step).head? = some start ∧
      ∃ L, (pyRange start stop step).getLast? = some L ∧
        L < stop ∧ stop ≤ L + step := by
  unfold pyRange
  rw [if_pos hstep]
  have ht : (0 : ℤ) ≤ stop - start := by omega
  have hfuel : stop ≤ start + step * ((stop - start).toNat : ℤ) := by
    rw [Int.toNat_of_nonneg ht]
    nlinarith
  have hfuelpos : 0 < (stop - start).toNat := by omega
  exact ⟨pyRangeGo_head stop step start _ hfuelpos hlt,
    pyRangeGo_getLast stop step _ start hlt hfuel⟩

lemma flatMap_rowWarning_length (lookup : ℚ → ℚ → Option ℚ) :
    ∀ df : List RawRow,
      (df.flatMap (rowWarning lookup)).length =
        (df.filter (fun r =>
          decide (lookup (mpaOf r) (tempKOf r) = none))).length := by
  intro df
  induction df with
  | nil => rfl
  | cons r rs ih =>
    simp only [List.flatMap_cons, List.filter_cons, List.length_append]
    cases h : lookup (mpaOf r) (tempKOf r) <;>
      simp [rowWarning, h, ih, Nat.add_comm]

/-! ### Concrete inputs for witnesses and counterexamples -/

/-- A lookup that fails on every (P, T) pair, as on points outside every
IAPWS-IF97 region. -/
def failLookup : ℚ → ℚ → Option ℚ := fun _ _ => none

/-- A lookup that succeeds everywhere with a constant enthalpy. -/
def constLookup (v : ℚ) : ℚ → ℚ → Option ℚ := fun _ _ => some v

/-- The spec's concrete conversion scenario:
`{pressure_psig: 1200, temperature_f: 1050}`. -/
def scenarioRow : RawRow := ⟨⟨2015, 1, 0⟩, 0, 0, 1200, 1050⟩

/-! ### Claims -/

/-- C2: for every row, the unit-conversion step computes exactly
`pressure_psia = pressure_psig + 14.7`,
`pressure_mpa = pressure_psia * 6894.76 / 1e6` and
`temperature_k = (temperature_f - 32) * 5/9 + 273.15`, as pure total
functions of that row's raw fields with no other inputs. -/
theorem C2_unit_conversion (lookup : ℚ → ℚ → Option ℚ) (df : List RawRow) :
    ((calculate_enthalpy_dataframe lookup df).1).map
        (fun r => (r.press_psia, r.press_mpa, r.temp_k)) =
      df.map (fun r =>
        (r.press_psig + 147/10,
         (r.press_psig + 147/10) * (689476/100) / 10^6,
         (r.temp_f - 32) * 5/9 + 27315/100)) := by
  simp only [calculate_enthalpy_dataframe, List.map_map]
  rfl

/-- C3: a row is in the `equipment_constraints`-filtered set iff it is in
the table and `power_mw > 30 ∧ power_swing_mw ≤ 3 ∧ temperature_f > 1000`
(so `power_mw = 30` is excluded and `power_swing_mw = 3` included), and
this single predicate is the one applied by the hours table and all chart
variants. -/
theorem C3_filter_predicate (df : List Row) (r : Row) :
    (r ∈ equipment_constraints df ↔
      r ∈ df ∧ (30 < r.power_mw ∧ r.powerSwing_mw ≤ 3 ∧ 1000 < r.temp_f)) ∧
    chart_1_filtered df = equipment_constraints (chart_1_mutate df) ∧
    (chart_2_dataframe_prep df).2 = equipment_constraints (chart_2_prep_mutate df) := by
  refine ⟨?_, rfl, rfl⟩
  simp [equipment_constraints, List.mem_filter, steadyState]

/-- C8: for every row with `pressure_psig ≥ -14.7`, the derived
`pressure_mpa` is nonnegative. -/
theorem C8_mpa_nonneg (lookup : ℚ → ℚ → Option ℚ) (r : RawRow)
    (h : -(147/10) ≤ r.press_psig) :
    0 ≤ (deriveRow lookup r).press_mpa := by
  have hmpa : (deriveRow lookup r).press_mpa
      = (r.press_psig + 147/10) * (689476/100) / 10^6 := rfl
  rw [hmpa]
  have h1 : (0 : ℚ) ≤ r.press_psig + 147/10 := by linarith
  exact div_nonneg (mul_nonneg h1 (by norm_num)) (by norm_num)

theorem C8_mpa_nonneg_witness :
    -(147/10 : ℚ) ≤ (1200 : ℚ) ∧ 0 ≤ (deriveRow failLookup scenarioRow).press_mpa :=
  ⟨by norm_num, C8_mpa_nonneg failLookup scenarioRow (by norm_num [scenarioRow])⟩

/-- C7 counterexample: at the spec's scenario row
`{pressure_psig: 1200, temperature_f: 1050}` the derived pressure is
exactly 8.375064972 MPa, which differs from the claimed ≈ 8.374 by more
than half of the displayed last digit (it rounds to 8.375, not 8.374). -/
theorem C7_mpa_counterexample :
    (deriveRow failLookup scenarioRow).press_mpa = 8375064972/10^9 ∧
    8374/1000 + 1/2000 < (deriveRow failLookup scenarioRow).press_mpa := by
  constructor <;> norm_num [deriveRow, mpaOf, psiaOf, scenarioRow]

/-- C7 (amended): for the input row with `pressure_psig = 1200` and
`temperature_f = 1050`, the conversion step produces
`pressure_psia = 1214.7` exactly, `pressure_mpa ≈ 8.375` (exactly
8.375064972, within half a thousandth of 8.375) and
`temperature_k ≈ 838.71` (within half a hundredth). -/
theorem C7_scenario_conversion (lookup : ℚ → ℚ → Option ℚ) :
    (deriveRow lookup scenarioRow).press_psia = 12147/10 ∧
    (deriveRow lookup scenarioRow).press_mpa = 8375064972/10^9 ∧
    8375/1000 - 1/2000 < (deriveRow lookup scenarioRow).press_mpa ∧
    (deriveRow lookup scenarioRow).press_mpa < 8375/1000 + 1/2000 ∧
    83871/100 - 1/200 < (deriveRow lookup scenarioRow).temp_k ∧
    (deriveRow lookup scenarioRow).temp_k < 83871/100 + 1/200 := by
  refine ⟨?_, ?_, ?_, ?_, ?_, ?_⟩ <;>
    norm_num [deriveRow, psiaOf, mpaOf, tempKOf, scenarioRow]

/-- C1: when the steam-table lookup fails for row `i`, the pipeline still
produces that row with an absent enthalpy, a warning carrying the row's
timestamp, pressure (MPa) and temperature (K) is among the emitted
warnings, every row of the batch is still produced, and exactly one
warning is emitted per failing row. -/
theorem C1_lookup_failure_policy (lookup : ℚ → ℚ → Option ℚ)
    (df : List RawRow) (i : ℕ) (r : RawRow)
    (hget : df[i]? = some r)
    (hfail : lookup (mpaOf r) (tempKOf r) = none) :
    (((calculate_enthalpy_dataframe lookup df).1)[i]?).map Row.enthalpy_kJ
        = some none ∧
    (⟨r.timestamp, mpaOf r, tempKOf r⟩ : Warning)
        ∈ (calculate_enthalpy_dataframe lookup df).2 ∧
    (calculate_enthalpy_dataframe lookup df).1.length = df.length ∧
    (calculate_enthalpy_dataframe lookup df).2.length =
      (df.filter (fun x =>
        decide (lookup (mpaOf x) (tempKOf x) = none))).length := by
  refine ⟨?_, ?_, by simp [calculate_enthalpy_dataframe],
    flatMap_rowWarning_length lookup df⟩
  · simp only [calculate_enthalpy_dataframe]
    rw [List.getElem?_map, hget]
    simp [deriveRow, calculate_enthalpy, hfail]
  · simp only [calculate_enthalpy_dataframe]
    rw [List.mem_flatMap]
    exact ⟨r, List.getElem?_mem hget, by simp [rowWarning, hfail]⟩

theorem C1_lookup_failure_policy_witness :
    ([scenarioRow][0]? = some scenarioRow ∧
      failLookup (mpaOf scenarioRow) (tempKOf scenarioRow) = none) ∧
    ((((calculate_enthalpy_dataframe failLookup [scenarioRow]).1)[0]?).map
        Row.enthalpy_kJ = some none ∧
      (⟨scenarioRow.timestamp, mpaOf scenarioRow, tempKOf scenarioRow⟩ : Warning)
        ∈ (calculate_enthalpy_dataframe failLookup [scenarioRow]).2 ∧
      (calculate_enthalpy_dataframe failLookup [scenarioRow]).1.length
        = [scenarioRow].length ∧
      (calculate_enthalpy_dataframe failLookup [scenarioRow]).2.length =
        ([scenarioRow].filter (fun x =>
          decide (failLookup (mpaOf x) (tempKOf x) = none))).length) :=
  ⟨⟨rfl, rfl⟩, C1_lookup_failure_policy failLookup [scenarioRow] 0 scenarioRow rfl rfl⟩

/-- C4: for every derived row, an absent `enthalpy_kj_per_kg` yields an
absent `enthalpy_btu_per_lb`, and a present one yields exactly the value
scaled by 0.4299226. -/
theorem C4_btu_propagates_absence (lookup : ℚ → ℚ → Option ℚ)
    (df : List RawRow) (row : Row)
    (hmem : row ∈ (calculate_enthalpy_dataframe lookup df).1) :
    (row.enthalpy_kJ = none → row.enthalpy_BTU = none) ∧
    (∀ v, row.enthalpy_kJ = some v →
      row.enthalpy_BTU = some (v * (4299226/10^7))) := by
  simp only [calculate_enthalpy_dataframe, List.mem_map] at hmem
  obtain ⟨r, _, hr⟩ := hmem
  subst hr
  constructor
  · intro h
    simp only [deriveRow] at h ⊢
    rw [h]
    rfl
  · intro v h
    simp only [deriveRow] at h ⊢
    rw [h]
    rfl

theorem C4_btu_propagates_absence_witness :
    (deriveRow failLookup scenarioRow
        ∈ (calculate_enthalpy_dataframe failLookup [scenarioRow]).1) ∧
    ((deriveRow failLookup scenarioRow).enthalpy_kJ = none →
      (deriveRow failLookup scenarioRow).enthalpy_BTU = none) :=
  ⟨List.mem_singleton.mpr rfl,
    (C4_btu_propagates_absence failLookup [scenarioRow]
      (deriveRow failLookup scenarioRow) (List.mem_singleton.mpr rfl)).1⟩

/-- C9: the derived-field computation is deterministic and row-local: two
rows (at any positions of any two tables) that agree on their raw fields
get identical derived rows — including success or failure of the enthalpy
lookup — regardless of any other row's contents or of row order. -/
theorem C9_row_local_determinism (lookup : ℚ → ℚ → Option ℚ)
    (df1 df2 : List RawRow) (i j : ℕ) (r1 r2 : RawRow)
    (h1 : df1[i]? = some r1) (h2 : df2[j]? = some r2)
    (hraw : r1 = r2) :
    ((calculate_enthalpy_dataframe lookup df1).1)[i]?
      = ((calculate_enthalpy_dataframe lookup df2).1)[j]? := by
  simp only [calculate_enthalpy_dataframe]
  rw [List.getElem?_map, List.getElem?_map, h1, h2, hraw]

theorem C9_row_local_determinism_witness :
    ([scenarioRow, scenarioRow][1]? = some scenarioRow ∧
      [scenarioRow][0]? = some scenarioRow) ∧
    ((calculate_enthalpy_dataframe failLookup [scenarioRow, scenarioRow]).1)[1]?
      = ((calculate_enthalpy_dataframe failLookup [scenarioRow]).1)[0]? :=
  ⟨⟨rfl, rfl⟩,
    C9_row_local_determinism failLookup [scenarioRow, scenarioRow] [scenarioRow]
      1 0 scenarioRow scenarioRow rfl rfl rfl⟩


/-! ### Further helper lemmas for the binning layer -/

lemma tempMax_map_preserve (f : Row → Row) (hf : ∀ r, (f r).temp_f = r.temp_f)
    (df : List Row) : tempMax (df.map f) = tempMax df := by
  cases df with
  | nil => rfl
  | cons r rs =>
    simp only [List.map_cons, tempMax, List.foldl_map, hf]

lemma tempMax_chart_1_mutate (df : List Row) :
    tempMax (chart_1_mutate df) = tempMax df := by
  have h := tempMax_map_preserve
    (fun r =>
      { r with quarter := some (toQuarter r.timestamp)
               year := some r.timestamp.year
               temp_range := pdCut (chart1Bins df)
                 (binLabels 50 (chart1Bins df)) r.temp_f })
    (fun r => rfl) df
  simpa only [chart_1_mutate] using h

lemma chart_1_temp_range (df : List Row) :
    (chart_1_mutate df).map Row.temp_range
      = df.map (fun r => pdCut (chart1Bins df) (binLabels 50 (chart1Bins df)) r.temp_f) := by
  simp only [chart_1_mutate, List.map_map]
  rfl

lemma chart_2_prep_temp_range (df : List Row) :
    (chart_2_prep_mutate df).map Row.temp_range
      = df.map (fun r => pdCut (chart2Bins df) (binLabels 10 (chart2Bins df)) r.temp_f) := by
  simp only [chart_2_prep_mutate, List.map_map]
  rfl

lemma map_temp_f_chart_1 {α : Type} (g : ℚ → α) (df : List Row) :
    (chart_1_mutate df).map (fun r => g r.temp_f) = df.map (fun r => g r.temp_f) := by
  simp only [chart_1_mutate, List.map_map]
  rfl

/-! ### Concrete tables for C5 and C6 -/

/-- A filtered-qualifying row with the given power, swing and temperature,
used as concrete table input. -/
def mkRow (p s t : ℚ) : Row :=
  { timestamp := ⟨2015, 1, 0⟩
    power_mw := p
    powerSwing_mw := s
    press_psig := 0
    temp_f := t
    press_psia := 0
    temp_k := 0
    press_mpa := 0
    enthalpy_kJ := none
    enthalpy_BTU := none }

/-- A one-row table whose maximum temperature 1250.5 °F truncates onto a
50°F bin edge. -/
def badMaxDf : List Row := [mkRow 40 1 (2501/2)]

/-- C5 counterexample: for the table with observed maximum
`temperature_f = 1250.5`, chart 1's bin edges end at 1250, which is
strictly below the observed maximum, and that maximum row falls outside
every bin (`Temp_Range` is `NaN`). -/
theorem C5_last_edge_counterexample :
    tempMax badMaxDf = some (2501/2) ∧
    (chart1Bins badMaxDf).getLast? = some 1250 ∧
    ((1250 : ℤ) : ℚ) < 2501/2 ∧
    (chart_1_mutate badMaxDf).map Row.temp_range = [none] := by
  have hp : pyInt ((tempMax badMaxDf).getD 0) = 1250 := by
    norm_num [tempMax, badMaxDf, mkRow, pyInt]
  have hbins : chart1Bins badMaxDf = [1000, 1050, 1100, 1150, 1200, 1250] := by
    unfold chart1Bins
    rw [hp]
    decide
  have hlab : binLabels 50 [1000, 1050, 1100, 1150, 1200, 1250]
      = ["1000 - 1050°F", "1050 - 1100°F", "1100 - 1150°F",
         "1150 - 1200°F", "1200 - 1250°F"] := by decide
  refine ⟨rfl, by rw [hbins]; rfl, by norm_num, ?_⟩
  rw [chart_1_temp_range, hbins, hlab]
  simp only [badMaxDf, mkRow, List.map_cons, List.map_nil]
  simp only [pdCut]
  norm_num

/-- C5 (amended): for every non-empty table whose truncated observed
maximum is at least 1000°F, both binning schemes build edges starting at
1000°F with Python-range stop `int(max) + width`, so the last bin edge is
at least the *truncated* observed maximum `int(max)` (and below
`int(max) + width`); coverage of the true maximum itself can fail when
the maximum is non-integral and its truncation lands exactly on a bin
edge. -/
theorem C5_bin_edges (df : List Row) (m : ℚ)
    (hmax : tempMax df = some m) (hm : 1000 ≤ pyInt m) :
    ((chart1Bins df).head? = some 1000 ∧
      ∃ L, (chart1Bins df).getLast? = some L ∧ pyInt m ≤ L ∧ L < pyInt m + 50) ∧
    ((chart2Bins df).head? = some 1000 ∧
      ∃ L, (chart2Bins df).getLast? = some L ∧ pyInt m ≤ L ∧ L < pyInt m + 10) := by
  constructor
  · obtain ⟨h1, L, h2, h3, h4⟩ :=
      pyRange_spec 1000 (pyInt m + 50) 50 (by norm_num) (by omega)
    unfold chart1Bins
    rw [hmax, Option.getD_some]
    exact ⟨h1, L, h2, by omega, by omega⟩
  · obtain ⟨h1, L, h2, h3, h4⟩ :=
      pyRange_spec 1000 (pyInt m + 10) 10 (by norm_num) (by omega)
    unfold chart2Bins
    rw [hmax, Option.getD_some]
    exact ⟨h1, L, h2, by omega, by omega⟩

theorem C5_bin_edges_witness :
    (tempMax [mkRow 40 1 1243] = some 1243 ∧ 1000 ≤ pyInt 1243) ∧
    (((chart1Bins [mkRow 40 1 1243]).head? = some 1000 ∧
      ∃ L, (chart1Bins [mkRow 40 1 1243]).getLast? = some L ∧
        pyInt 1243 ≤ L ∧ L < pyInt 1243 + 50) ∧
    ((chart2Bins [mkRow 40 1 1243]).head? = some 1000 ∧
      ∃ L, (chart2Bins [mkRow 40 1 1243]).getLast? = some L ∧
        pyInt 1243 ≤ L ∧ L < pyInt 1243 + 10)) :=
  ⟨⟨rfl, by norm_num [pyInt]⟩,
    C5_bin_edges [mkRow 40 1 1243] 1243 rfl (by norm_num [pyInt])⟩

/-- The raw and core-derived columns of an augmented row: the five inputs
plus `Press (psia)`, `Temp (K)`, `Press (MPa)` and the two enthalpies. -/
def coreView (r : Row) :
    Timestamp × ℚ × ℚ × ℚ × ℚ × ℚ × ℚ × ℚ × Option ℚ × Option ℚ :=
  (r.timestamp, r.power_mw, r.powerSwing_mw, r.press_psig, r.temp_f,
   r.press_psia, r.temp_k, r.press_mpa, r.enthalpy_kJ, r.enthalpy_BTU)

/-- The five raw input columns of a raw row. -/
def rawView (r : RawRow) : Timestamp × ℚ × ℚ × ℚ × ℚ :=
  (r.timestamp, r.power_mw, r.powerSwing_mw, r.press_psig, r.temp_f)

/-- The five raw input columns of an augmented row. -/
def rowRawView (r : Row) : Timestamp × ℚ × ℚ × ℚ × ℚ :=
  (r.timestamp, r.power_mw, r.powerSwing_mw, r.press_psig, r.temp_f)

/-- The raw row behind the C6 mutation scenario. -/
def rawMut : RawRow := ⟨⟨2015, 1, 0⟩, 40, 1, 1200, 1065⟩

/-- A one-row augmented table used to exhibit the chart-layer mutations. -/
def mutDf : List Row := (calculate_enthalpy_dataframe failLookup [rawMut]).1

/-- C6 counterexample: `chart_1` assigns `Temp_Range = '1050 - 1100°F'` on
the shared table, and the later `chart_2_dataframe_prep` overwrites that
same row's field with `'1060 - 1070°F'` — a later operation of the
pipeline does modify a field of a row. -/
theorem C6_temp_range_overwritten :
    (chart_1_mutate mutDf).map Row.temp_range = [some "1050 - 1100°F"] ∧
    (chart_2_prep_mutate (chart_1_mutate mutDf)).map Row.temp_range
      = [some "1060 - 1070°F"] ∧
    (some "1050 - 1100°F" : Option String) ≠ some "1060 - 1070°F" := by
  have htm : tempMax mutDf = some 1065 := rfl
  have hp1 : pyInt ((tempMax mutDf).getD 0) = 1065 := by
    rw [htm, Option.getD_some]
    norm_num [pyInt]
  have hbins1 : chart1Bins mutDf = [1000, 1050, 1100] := by
    unfold chart1Bins
    rw [hp1]
    decide
  have hlab1 : binLabels 50 [1000, 1050, 1100]
      = ["1000 - 1050°F", "1050 - 1100°F"] := by decide
  have hp2 : pyInt ((tempMax (chart_1_mutate mutDf)).getD 0) = 1065 := by
    rw [tempMax_chart_1_mutate, htm, Option.getD_some]
    norm_num [pyInt]
  have hbins2 : chart2Bins (chart_1_mutate mutDf)
      = [1000, 1010, 1020, 1030, 1040, 1050, 1060, 1070] := by
    unfold chart2Bins
    rw [hp2]
    decide
  have hlab2 : binLabels 10 [1000, 1010, 1020, 1030, 1040, 1050, 1060, 1070]
      = ["1000 - 1010°F", "1010 - 1020°F", "1020 - 1030°F", "1030 - 1040°F",
         "1040 - 1050°F", "1050 - 1060°F", "1060 - 1070°F"] := by decide
  refine ⟨?_, ?_, by decide⟩
  · rw [chart_1_temp_range, hbins1, hlab1]
    simp only [mutDf, calculate_enthalpy_dataframe, rawMut, List.map_cons,
      List.map_nil, deriveRow]
    simp only [pdCut]
    norm_num
  · rw [chart_2_prep_temp_range, hbins2, hlab2,
      map_temp_f_chart_1 (pdCut [1000, 1010, 1020, 1030, 1040, 1050, 1060, 1070]
        ["1000 - 1010°F", "1010 - 1020°F", "1020 - 1030°F", "1030 - 1040°F",
         "1040 - 1050°F", "1050 - 1060°F", "1060 - 1070°F"]) mutDf]
    simp only [mutDf, calculate_enthalpy_dataframe, rawMut, List.map_cons,
      List.map_nil, deriveRow]
    simp only [pdCut]
    norm_num

/-- C6 (amended): the core augments the table without changing the raw
input columns, and no later chart operation changes the raw or the five
core-derived columns of any row; the chart functions do, however, mutate
the shared table's `Quarter`, `Year` and `Temp_Range` columns (chart 2's
preparation overwrites chart 1's `Temp_Range`). -/
theorem C6_core_columns_frame (lookup : ℚ → ℚ → Option ℚ)
    (raw : List RawRow) (df : List Row) :
    ((calculate_enthalpy_dataframe lookup raw).1).map rowRawView
        = raw.map rawView ∧
    (chart_1_mutate df).map coreView = df.map coreView ∧
    (chart_2_prep_mutate df).map coreView = df.map coreView := by
  refine ⟨?_, ?_, ?_⟩ <;>
    · simp only [calculate_enthalpy_dataframe, chart_1_mutate,
        chart_2_prep_mutate, List.map_map]
      rfl

/-- C10: a `(Year, Quarter, Temp_Range)` group appears in chart 1's
rendered hours table iff its count of filtered rows strictly exceeds 5;
the chart-2 scatter variants plot a filtered row iff its `Temp_Range` is
present (the groupby drops `NaN` keys) — membership there never depends
on any group's hour count, so the count suppression is applied only to
the coarse-bin table. -/
theorem C10_hours_table_suppression (df : List Row)
    (k : Option ℤ × Option (ℤ × ℕ) × String) (r : Row) :
    ((k, countKey (chart_1_filtered df) k) ∈ chart_1_table (chart_1_filtered df)
      ↔ 5 < countKey (chart_1_filtered df) k) ∧
    (r ∈ chart_2_points df ↔
      r ∈ equipment_constraints (chart_2_prep_mutate df) ∧
        r.temp_range ≠ none) := by
  refine ⟨?_, by simp [chart_2_points, chart_2_dataframe_prep, List.mem_filter]⟩
  constructor
  · intro hmem
    have h := (List.mem_filter.mp hmem).2
    simpa using h
  · intro h5
    apply List.mem_filter.mpr
    refine ⟨?_, by simpa using h5⟩
    apply List.mem_map.mpr
    refine ⟨k, ?_, rfl⟩
    apply List.mem_dedup.mpr
    have hpos : 0 < ((chart_1_filtered df).filter
        (fun r => decide (chart1Key r = some k))).length := by
      unfold countKey at h5
      omega
    obtain ⟨r, hr⟩ := List.exists_mem_of_length_pos hpos
    have hrF : r ∈ chart_1_filtered df := (List.mem_filter.mp hr).1
    have hrk : chart1Key r = some k := by
      have h := (List.mem_filter.mp hr).2
      simpa using h
    exact List.mem_filterMap.mpr ⟨r, hrF, hrk⟩
